import Mathlib

/-!
Shallow embedding of the route-plan selector of the Delivery_route_optimisation
dashboard (source file tailwind.config.js, component DeliveryOptimizationDashboard).
The core is the generateRoute function: a switch on the vehicle identifier
returning a hardcoded ordered stop list and four summary metrics, stored into
the component state optimizedRouteData.  The pure switch body (lines 67-116)
is embedded as selectPlan; the surrounding component state and the
setOptimizedRouteData call (lines 117-124) as DashState and generateRoute.
Real numbers of the source (55.2 km, 3.2 h, ...) are embedded as exact
rationals.
-/

/-- A single stop of a route: a display label and a scheduled time string,
mirroring the objects with fields stop and time built in generateRoute. -/
structure Stop where
  stop : String
  time : String
deriving Repr, DecidableEq

/-- The optimized route data built by generateRoute: the ordered stop list and
the four scalar metrics, mirroring the object passed to setOptimizedRouteData. -/
structure Plan where
  route : List Stop
  totalDistance : ℚ
  estimatedTime : ℚ
  fuelCost : ℕ
  deliveries : ℕ
deriving Repr

/-- The default-branch result of generateRoute: the local variables keep their
initial values (newRoute = [], all four metrics 0). -/
def emptyPlan : Plan :=
  { route := [], totalDistance := 0, estimatedTime := 0, fuelCost := 0, deliveries := 0 }

/-- Pure core of generateRoute (tailwind.config.js lines 67-116): the switch on
vehicleId with its three literal cases and the default branch.  The JS switch
with break in every case is equivalent to this if-chain on exact string
equality. -/
def selectPlan (vehicleId : String) : Plan :=
  if vehicleId = "VEH_001" then
    { route :=
        [ ⟨"🏭 Depot (Start)", "08:00 AM"⟩,
          ⟨"📦 Bandra West - ORD_001", "08:25 AM"⟩,
          ⟨"📦 Andheri East - ORD_003", "09:10 AM"⟩,
          ⟨"📦 Churchgate - ORD_002", "09:45 AM"⟩,
          ⟨"📦 Powai - ORD_004", "10:30 AM"⟩,
          ⟨"🏭 Return to Depot", "11:15 AM"⟩ ],
      totalDistance := 55.2, estimatedTime := 3.2, fuelCost := 480, deliveries := 4 }
  else if vehicleId = "VEH_002" then
    { route :=
        [ ⟨"🏭 Depot (Start)", "08:00 AM"⟩,
          ⟨"📦 Worli - ORD_005", "08:20 AM"⟩,
          ⟨"📦 Bandra West - ORD_001", "08:50 AM"⟩,
          ⟨"📦 Andheri East - ORD_003", "09:35 AM"⟩,
          ⟨"🏭 Return to Depot", "10:10 AM"⟩ ],
      totalDistance := 42.1, estimatedTime := 2.8, fuelCost := 350, deliveries := 3 }
  else if vehicleId = "VEH_003" then
    { route :=
        [ ⟨"🏭 Depot (Start)", "08:00 AM"⟩,
          ⟨"📦 Churchgate - ORD_002", "08:30 AM"⟩,
          ⟨"📦 Worli - ORD_005", "09:00 AM"⟩,
          ⟨"🏭 Return to Depot", "09:45 AM"⟩ ],
      totalDistance := 32.5, estimatedTime := 2.5, fuelCost := 285, deliveries := 2 }
  else
    emptyPlan

/-- One entry of the static vehicle table, mirroring the objects with fields
id, name and capacity of the vehicles state (lines 37-41). -/
structure Vehicle where
  id : String
  name : String
  capacity : String
deriving Repr, DecidableEq

/-- The static vehicle table: the initial value of the vehicles state
(tailwind.config.js lines 37-41), never modified afterwards. -/
def vehicles : List Vehicle :=
  [ ⟨"VEH_001", "Large Truck", "1000kg capacity"⟩,
    ⟨"VEH_002", "Medium Van", "750kg capacity"⟩,
    ⟨"VEH_003", "Small Van", "500kg capacity"⟩ ]

/-- The deliveryMetrics state object, as set by the interval callback
(lines 50-57): three integer counters and three strings produced by toFixed. -/
structure DeliveryMetrics where
  totalOrders : ℕ
  deliveredOrders : ℕ
  inTransitOrders : ℕ
  averageDeliveryTime : String
  onTimeDeliveryRate : String
  customerSatisfaction : String
deriving Repr, DecidableEq

/-- The mutable state of the DeliveryOptimizationDashboard component: the six
useState cells (lines 35-44). -/
structure DashState where
  activeTab : String
  orders : List String
  vehicles : List Vehicle
  selectedVehicle : String
  deliveryMetrics : DeliveryMetrics
  optimizedRouteData : Plan
deriving Repr

/-- generateRoute as a transformer of the component state: it computes the
plan for the given vehicle identifier and stores it via setOptimizedRouteData
(lines 117-124); no other state cell is touched. -/
def generateRoute (vehicleId : String) (s : DashState) : DashState :=
  { s with optimizedRouteData := selectPlan vehicleId }

/-- A stop label is a depot marker exactly when it carries the factory glyph
the source uses for both depot stops (vs the package glyph of delivery stops). -/
def isDepotLabel (s : String) : Bool :=
  s.data.head? = some '🏭'

/-- Value of a decimal digit character, none otherwise. -/
def digitVal (c : Char) : Option ℕ :=
  if c.isDigit then some (c.toNat - 48) else none

/-- Minutes since midnight of a 12-hour clock time string such as
"08:25 AM"; none when the string is not of that shape. -/
def timeToMinutes (t : String) : Option ℕ :=
  match t.data with
  | [h1, h2, ':', m1, m2, ' ', p, 'M'] =>
    match digitVal h1, digitVal h2, digitVal m1, digitVal m2, p with
    | some a, some b, some c, some d, 'A' =>
        some (((a * 10 + b) % 12) * 60 + (c * 10 + d))
    | some a, some b, some c, some d, 'P' =>
        some (((a * 10 + b) % 12 + 12) * 60 + (c * 10 + d))
    | _, _, _, _, _ => none
  | _ => none

/-- The scheduled times of a stop list parse and are strictly increasing from
each stop to the next. -/
def timesSorted : List Stop → Bool
  | [] => true
  | [_] => true
  | a :: b :: rest =>
    (match timeToMinutes a.time, timeToMinutes b.time with
     | some x, some y => decide (x < y)
     | _, _ => false) && timesSorted (b :: rest)

/-- Claim C1: for each of the three known vehicle identifiers, selectPlan
returns exactly the literal plan fixed in the source: 6 stops, distance 55.2,
time 3.2, fuel cost 480, deliveries 4 for VEH_001; 5 stops, 42.1, 2.8, 350, 3
for VEH_002; 4 stops, 32.5, 2.5, 285, 2 for VEH_003. -/
theorem selectPlan_known_vehicle_literals :
    (selectPlan "VEH_001").route.length = 6 ∧
    selectPlan "VEH_001" =
      { route :=
          [ ⟨"🏭 Depot (Start)", "08:00 AM"⟩,
            ⟨"📦 Bandra West - ORD_001", "08:25 AM"⟩,
            ⟨"📦 Andheri East - ORD_003", "09:10 AM"⟩,
            ⟨"📦 Churchgate - ORD_002", "09:45 AM"⟩,
            ⟨"📦 Powai - ORD_004", "10:30 AM"⟩,
            ⟨"🏭 Return to Depot", "11:15 AM"⟩ ],
        totalDistance := 55.2, estimatedTime := 3.2, fuelCost := 480, deliveries := 4 } ∧
    (selectPlan "VEH_002").route.length = 5 ∧
    selectPlan "VEH_002" =
      { route :=
          [ ⟨"🏭 Depot (Start)", "08:00 AM"⟩,
            ⟨"📦 Worli - ORD_005", "08:20 AM"⟩,
            ⟨"📦 Bandra West - ORD_001", "08:50 AM"⟩,
            ⟨"📦 Andheri East - ORD_003", "09:35 AM"⟩,
            ⟨"🏭 Return to Depot", "10:10 AM"⟩ ],
        totalDistance := 42.1, estimatedTime := 2.8, fuelCost := 350, deliveries := 3 } ∧
    (selectPlan "VEH_003").route.length = 4 ∧
    selectPlan "VEH_003" =
      { route :=
          [ ⟨"🏭 Depot (Start)", "08:00 AM"⟩,
            ⟨"📦 Churchgate - ORD_002", "08:30 AM"⟩,
            ⟨"📦 Worli - ORD_005", "09:00 AM"⟩,
            ⟨"🏭 Return to Depot", "09:45 AM"⟩ ],
        totalDistance := 32.5, estimatedTime := 2.5, fuelCost := 285, deliveries := 2 } :=
  ⟨rfl, rfl, rfl, rfl, rfl, rfl⟩

/-- Claim C2: for every string other than the three known identifiers
(including the empty string) selectPlan returns the empty plan — empty stop
list and all four metrics zero; being a total Lean function, it never fails. -/
theorem selectPlan_unknown_empty (s : String)
    (h1 : s ≠ "VEH_001") (h2 : s ≠ "VEH_002") (h3 : s ≠ "VEH_003") :
    selectPlan s = emptyPlan := by
  unfold selectPlan
  split_ifs <;> first | rfl | contradiction

/-- Witness for C2 at the empty string. -/
theorem selectPlan_unknown_empty_witness : selectPlan "" = emptyPlan :=
  selectPlan_unknown_empty "" (by decide) (by decide) (by decide)

/-- Claim C3: generateRoute only stores the computed plan into the
optimizedRouteData cell; every other component state cell (active tab, orders,
vehicle table, selected vehicle, delivery metrics) is left unchanged, so the
plan computation itself is pure and the storage of the result is the
enclosing state update, not part of the selection logic. -/
theorem generateRoute_frame (vehicleId : String) (s : DashState) :
    (generateRoute vehicleId s).optimizedRouteData = selectPlan vehicleId ∧
    (generateRoute vehicleId s).activeTab = s.activeTab ∧
    (generateRoute vehicleId s).orders = s.orders ∧
    (generateRoute vehicleId s).vehicles = s.vehicles ∧
    (generateRoute vehicleId s).selectedVehicle = s.selectedVehicle ∧
    (generateRoute vehicleId s).deliveryMetrics = s.deliveryMetrics :=
  ⟨rfl, rfl, rfl, rfl, rfl, rfl⟩

/-- Claim C4: generateRoute is deterministic and idempotent: the stored plan
depends only on the vehicle identifier, not on the prior state, and applying
generateRoute twice with the same identifier equals applying it once. -/
theorem generateRoute_deterministic_idempotent (vehicleId : String) (s t : DashState) :
    (generateRoute vehicleId s).optimizedRouteData
      = (generateRoute vehicleId t).optimizedRouteData ∧
    generateRoute vehicleId (generateRoute vehicleId s) = generateRoute vehicleId s :=
  ⟨rfl, rfl⟩

/-- Claim C5: for every known vehicle identifier the stop sequence is exactly
the fixed per-vehicle order: first the depot start, then the delivery stops in
the fixed order, last the depot return, with no depot marker in between. -/
theorem selectPlan_stop_order :
    (selectPlan "VEH_001").route.head? = some ⟨"🏭 Depot (Start)", "08:00 AM"⟩ ∧
    (selectPlan "VEH_001").route.getLast? = some ⟨"🏭 Return to Depot", "11:15 AM"⟩ ∧
    ((selectPlan "VEH_001").route.drop 1).dropLast.map Stop.stop =
      [ "📦 Bandra West - ORD_001", "📦 Andheri East - ORD_003",
        "📦 Churchgate - ORD_002", "📦 Powai - ORD_004" ] ∧
    (selectPlan "VEH_002").route.head? = some ⟨"🏭 Depot (Start)", "08:00 AM"⟩ ∧
    (selectPlan "VEH_002").route.getLast? = some ⟨"🏭 Return to Depot", "10:10 AM"⟩ ∧
    ((selectPlan "VEH_002").route.drop 1).dropLast.map Stop.stop =
      [ "📦 Worli - ORD_005", "📦 Bandra West - ORD_001", "📦 Andheri East - ORD_003" ] ∧
    (selectPlan "VEH_003").route.head? = some ⟨"🏭 Depot (Start)", "08:00 AM"⟩ ∧
    (selectPlan "VEH_003").route.getLast? = some ⟨"🏭 Return to Depot", "09:45 AM"⟩ ∧
    ((selectPlan "VEH_003").route.drop 1).dropLast.map Stop.stop =
      [ "📦 Churchgate - ORD_002", "📦 Worli - ORD_005" ] ∧
    ((selectPlan "VEH_001").route.drop 1).dropLast.all
      (fun st => !(isDepotLabel st.stop)) = true ∧
    ((selectPlan "VEH_002").route.drop 1).dropLast.all
      (fun st => !(isDepotLabel st.stop)) = true ∧
    ((selectPlan "VEH_003").route.drop 1).dropLast.all
      (fun st => !(isDepotLabel st.stop)) = true := by
  decide

/-- Claim C6: for every input string the deliveries metric of the returned
plan equals the number of non-depot stops of its stop sequence. -/
theorem selectPlan_deliveries_counts_non_depot (s : String) :
    (selectPlan s).deliveries =
      ((selectPlan s).route.filter (fun st => !(isDepotLabel st.stop))).length := by
  unfold selectPlan
  split_ifs <;> decide

/-- Claim C7: the static vehicle table has exactly the three entries of the
source — large truck 1000 kg, medium van 750 kg, small van 500 kg — and every
id of the table is recognised by selectPlan (its plan is non-empty). -/
theorem vehicles_table_entries :
    vehicles =
      [ ⟨"VEH_001", "Large Truck", "1000kg capacity"⟩,
        ⟨"VEH_002", "Medium Van", "750kg capacity"⟩,
        ⟨"VEH_003", "Small Van", "500kg capacity"⟩ ] ∧
    vehicles.length = 3 ∧
    vehicles.all (fun v => !(selectPlan v.id).route.isEmpty) = true := by
  refine ⟨rfl, rfl, ?_⟩
  decide

/-- Claim C8: identifier matching is exact, case-sensitive string equality:
any string that differs in case or whitespace from the three known identifiers
(such as lowercased or padded variants) is unknown, and in general every
string outside the known set yields the empty plan. -/
theorem selectPlan_exact_case_sensitive_match :
    selectPlan "veh_001" = emptyPlan ∧
    selectPlan "VEH_001 " = emptyPlan ∧
    selectPlan " VEH_002" = emptyPlan ∧
    selectPlan "Veh_003" = emptyPlan ∧
    (∀ s : String, s ∉ (["VEH_001", "VEH_002", "VEH_003"] : List String) →
      selectPlan s = emptyPlan) := by
  refine ⟨rfl, rfl, rfl, rfl, ?_⟩
  intro s h
  simp only [List.mem_cons, List.mem_singleton, not_or] at h
  obtain ⟨h1, h2, h3, -⟩ := h
  unfold selectPlan
  split_ifs <;> first | rfl | contradiction

/-- Witness for C8 at a lowercased identifier. -/
theorem selectPlan_exact_case_sensitive_match_witness :
    selectPlan "veh_002" = emptyPlan :=
  selectPlan_exact_case_sensitive_match.2.2.2.2 "veh_002" (by decide)

/-- Claim C9: in every non-empty plan the scheduled time strings of the stops
are strictly increasing chronologically from the first stop (08:00 AM at the
depot) to the last. -/
theorem selectPlan_times_strictly_increasing (s : String)
    (h : (selectPlan s).route ≠ []) :
    timesSorted (selectPlan s).route = true := by
  unfold selectPlan
  split_ifs <;> decide

/-- Witness for C9: the plan of VEH_001 is non-empty and its times are
strictly increasing. -/
theorem selectPlan_times_strictly_increasing_witness :
    (selectPlan "VEH_001").route ≠ [] ∧
    timesSorted (selectPlan "VEH_001").route = true :=
  ⟨by decide, selectPlan_times_strictly_increasing "VEH_001" (by decide)⟩

/-- Claim C10: the stop sequences of different vehicles are not disjoint: the
delivery stop for order ORD_001 at Bandra West, and also the one for ORD_003
at Andheri East, occur in the plans of both VEH_001 and VEH_002, two distinct
known identifiers, so the three plans do not partition the orders. -/
theorem selectPlan_routes_not_disjoint :
    ((selectPlan "VEH_001").route.map Stop.stop).contains "📦 Bandra West - ORD_001" = true ∧
    ((selectPlan "VEH_002").route.map Stop.stop).contains "📦 Bandra West - ORD_001" = true ∧
    ((selectPlan "VEH_001").route.map Stop.stop).contains "📦 Andheri East - ORD_003" = true ∧
    ((selectPlan "VEH_002").route.map Stop.stop).contains "📦 Andheri East - ORD_003" = true ∧
    isDepotLabel "📦 Bandra West - ORD_001" = false ∧
    isDepotLabel "📦 Andheri East - ORD_003" = false ∧
    ("VEH_001" : String) ≠ "VEH_002" := by
  decide
